import Mathlib

/-!
A shallow embedding of the watchdog multiplexer `src/watchdog-mux.c`.

The C program is embedded as pure functions over an explicit process state.

* C `int` values are `Int`. The program does no arithmetic on them apart from
  its two bounded loop counters, so no overflow arises.
* A `wd_client_t *` is the index of the slot of `client_list` it points to,
  `NULL` is `none`.
* Every system call the program makes is appended to `State.ops`, every
  diagnostic line (`perror`, `fprintf`, `printf`) to `State.log`.
* The value returned by a system call is an input of the embedding (the
  `StartupEnv`, `EvSys` and `WaitResult` records).
* `exit` ends the run: `Outcome.exited code s`.
-/

namespace WatchdogMux

/-! ## Constants -/

def LISTEN_BACKLOG : Int := 50
def MAX_EVENTS : Int := 10
def MAX_CLIENTS : Nat := 100
def EXIT_SUCCESS : Int := 0
def EXIT_FAILURE : Int := 1
/-- First descriptor passed by the service manager (`sd-daemon.h`). -/
def SD_LISTEN_FDS_START : Int := 3
/-- Event bits of `sys/epoll.h`. -/
def EPOLLIN : Nat := 0x001
def EPOLLERR : Nat := 0x008
def EPOLLHUP : Nat := 0x010
/-- The `errno` value of an interrupted system call. -/
def EINTR : Int := 4
/-- Initial value of the global `watchdog_timeout`. -/
def WATCHDOG_TIMEOUT_INIT : Int := 20

/-- The two path names the program uses. -/
inductive Path where
  | WATCHDOG_DEV
  | MY_SOCK_PATH
  deriving DecidableEq, Repr

/-! ## Data model -/

/-- The struct `wd_client_t`. -/
structure wd_client_t where
  fd : Int
  time : Int
  deriving DecidableEq, Repr

/-- Width of a C `int` in bytes on the Linux targets of the program. -/
def sizeof_int : Nat := 4

/-- Value of an `int` all of whose bytes were set to `c` by `memset`. -/
def memset_int (c : Nat) : Int :=
  let u : Nat := (List.replicate sizeof_int (c % 256)).foldl (fun acc b => acc * 256 + b) 0
  if u < 2 ^ (8 * sizeof_int - 1) then (u : Int) else (u : Int) - 2 ^ (8 * sizeof_int)

/-- System calls, in the order of their first use in `main`. -/
inductive Op where
  | stat (p : Path)
  | system_modprobe
  | open_wronly (p : Path)
  | ioctl_settimeout (fd : Int) (timeout : Int)
  | ioctl_getsupport (fd : Int)
  | ioctl_keepalive (fd : Int)
  | write (fd : Int) (buf : List Char)
  | close (fd : Int)
  | sd_listen_fds
  | unlink (p : Path)
  | socket
  | bind (fd : Int) (p : Path)
  | listen (fd : Int) (backlog : Int)
  | epoll_create
  | epoll_ctl_add (epfd : Int) (fd : Int) (ptr : Option Nat)
  | epoll_ctl_del (epfd : Int) (fd : Int)
  | epoll_wait (epfd : Int)
  | accept (fd : Int)
  | fcntl_nonblock (fd : Int)
  | read (fd : Int)
  deriving DecidableEq, Repr

/-- Diagnostic output. -/
inductive Msg where
  | perror (tag : String)
  | driver_identity
  | got_bytes (n : Int)
  | got_event (mask : Nat)
  | unable_to_alloc
  | close_client_connection
  deriving DecidableEq, Repr

/-- The globals of the program (`watchdog_fd`, `watchdog_timeout`, `client_list`),
the two locals of `main` that live across the event loop (`listen_sock`,
`epollfd`; they are assigned before their first use, until then they read 0
here) and the observable history. -/
structure State where
  watchdog_fd : Int
  watchdog_timeout : Int
  client_list : List wd_client_t
  listen_sock : Int
  epollfd : Int
  ops : List Op
  log : List Msg
  deriving DecidableEq, Repr

/-- Record a system call. -/
def State.sys (s : State) (o : Op) : State := { s with ops := s.ops ++ [o] }

/-- Record a diagnostic line. -/
def State.say (s : State) (m : Msg) : State := { s with log := s.log ++ [m] }

/-- State at program start: `watchdog_fd = -1`, `client_list` zero-initialised. -/
def State.init : State :=
  { watchdog_fd := -1
    watchdog_timeout := WATCHDOG_TIMEOUT_INIT
    listen_sock := 0
    epollfd := 0
    client_list := List.replicate MAX_CLIENTS ⟨0, 0⟩
    ops := []
    log := [] }

/-- How a run of (a part of) `main` ends: the process has exited, or it is still running. -/
inductive Outcome where
  | exited (code : Int) (s : State)
  | running (s : State)
  deriving DecidableEq, Repr

/-! ## `alloc_client`, `free_client`, `watchdog_close` -/

/-- The slot `client_list[i]` read through a pointer or an index. -/
def slot (cl : List wd_client_t) (i : Nat) : wd_client_t := cl.getD i ⟨0, 0⟩

/-- The `for` loop of `alloc_client`: `k` iterations remain and the loop
variable is `i` (so `k = MAX_CLIENTS - i`). Returns the pointer and the table. -/
def alloc_client_loop (fd : Int) (cl : List wd_client_t) : Nat → Nat → Option Nat × List wd_client_t
  | 0, _ => (none, cl)
  | k + 1, i =>
    if (slot cl i).fd = 0 then
      -- memset(&client_list[i], 1, sizeof(wd_client_t)); client_list[i].fd = fd;
      (some i, cl.set i { fd := fd, time := memset_int 1 })
    else
      alloc_client_loop fd cl k (i + 1)

/-- The function `alloc_client(fd)` on the table `cl`. -/
def alloc_client (cl : List wd_client_t) (fd : Int) : Option Nat × List wd_client_t :=
  alloc_client_loop fd cl MAX_CLIENTS 0

/-- The function `free_client(wd_client)` on the table `cl`. -/
def free_client (cl : List wd_client_t) (wd_client : Option Nat) : List wd_client_t :=
  match wd_client with
  | none => cl
  | some i => cl.set i { slot cl i with fd := 0 }

/-- The function `watchdog_close()`; `write_ret` and `close_ret` are what the two
system calls return when they are made. -/
def watchdog_close (s : State) (write_ret close_ret : Int) : State :=
  let s1 :=
    if s.watchdog_fd ≠ -1 then
      let a := s.sys (Op.write s.watchdog_fd ['V'])
      let b := if write_ret = -1 then a.say (Msg.perror "write magic watchdog close") else a
      let c := b.sys (Op.close s.watchdog_fd)
      if close_ret = -1 then c.say (Msg.perror "write magic watchdog close") else c
    else s
  { s1 with watchdog_fd := -1 }

/-! ## `main`: start-up -/

/-- What the system calls of the start-up part of `main` return.
`settimeout_out` is the timeout the driver stores back through the pointer
argument of `WDIOC_SETTIMEOUT`. -/
structure StartupEnv where
  stat_ret : Int
  open_ret : Int
  settimeout_ret : Int
  settimeout_out : Int
  getsupport_ret : Int
  wd_write_ret : Int
  wd_close_ret : Int
  sd_listen_fds_ret : Int
  socket_ret : Int
  bind_ret : Int
  listen_ret : Int
  epoll_create_ret : Int
  epoll_ctl_ret : Int
  deriving DecidableEq, Repr

/-- The label `err:` of `main`: `unlink(MY_SOCK_PATH); exit(EXIT_FAILURE);`. -/
def err (s : State) : Outcome :=
  Outcome.exited EXIT_FAILURE (s.sys (Op.unlink Path.MY_SOCK_PATH))

/-- Lines 151-162 of `main`: create the epoll instance and register the listener. -/
def main_epoll (e : StartupEnv) (s : State) : Outcome :=
  let s1 : State := { s.sys Op.epoll_create with epollfd := e.epoll_create_ret }
  if s1.epollfd = -1 then
    err (s1.say (Msg.perror "epoll_create"))
  else
    let r := alloc_client s1.client_list s1.listen_sock
    let s2 : State := { s1 with client_list := r.2 }
    let s3 := s2.sys (Op.epoll_ctl_add s2.epollfd s2.listen_sock r.1)
    if e.epoll_ctl_ret = -1 then
      err (s3.say (Msg.perror "epoll_ctl: listen_sock"))
    else
      Outcome.running s3

/-- Lines 114-149 of `main`: obtain the listening socket, then go on with `main_epoll`. -/
def main_listener (e : StartupEnv) (s : State) : Outcome :=
  let s1 := s.sys Op.sd_listen_fds
  let socket_count := e.sd_listen_fds_ret
  if socket_count > 1 then
    err (s1.say (Msg.perror "too many file descriptors received.\n"))
  else if socket_count = 1 then
    main_epoll e { s1 with listen_sock := SD_LISTEN_FDS_START + 0 }
  else
    let s2 := s1.sys (Op.unlink Path.MY_SOCK_PATH)
    let s3 : State := { s2.sys Op.socket with listen_sock := e.socket_ret }
    if s3.listen_sock = -1 then
      Outcome.exited EXIT_FAILURE (s3.say (Msg.perror "socket create"))
    else
      let s4 := s3.sys (Op.bind s3.listen_sock Path.MY_SOCK_PATH)
      if e.bind_ret = -1 then
        Outcome.exited EXIT_FAILURE (s4.say (Msg.perror "socket bind"))
      else
        let s5 := s4.sys (Op.listen s4.listen_sock LISTEN_BACKLOG)
        if e.listen_ret = -1 then
          err (s5.say (Msg.perror "socket listen"))
        else
          main_epoll e s5

/-- Lines 86-162 of `main`: everything before the event loop. -/
def main_startup (e : StartupEnv) : Outcome :=
  let s0 := State.init.sys (Op.stat Path.WATCHDOG_DEV)
  let s1 := if e.stat_ret = -1 then s0.sys Op.system_modprobe else s0
  let s2 : State := { s1.sys (Op.open_wronly Path.WATCHDOG_DEV) with watchdog_fd := e.open_ret }
  if s2.watchdog_fd = -1 then
    Outcome.exited EXIT_FAILURE (s2.say (Msg.perror "watchdog open"))
  else
    let s3 : State := { s2.sys (Op.ioctl_settimeout s2.watchdog_fd s2.watchdog_timeout) with
                watchdog_timeout := e.settimeout_out }
    if e.settimeout_ret = -1 then
      Outcome.exited EXIT_FAILURE
        (watchdog_close (s3.say (Msg.perror "watchdog set timeout")) e.wd_write_ret e.wd_close_ret)
    else
      let s4 := s3.sys (Op.ioctl_getsupport s3.watchdog_fd)
      if e.getsupport_ret = -1 then
        Outcome.exited EXIT_FAILURE
          (watchdog_close (s4.say (Msg.perror "read watchdog info")) e.wd_write_ret e.wd_close_ret)
      else
        main_listener e (s4.say Msg.driver_identity)

/-! ## `main`: the event loop -/

/-- One `struct epoll_event` as filled in by `epoll_wait`: the event mask and
`data.ptr`, the slot of `client_list` that was registered with the descriptor. -/
structure epoll_event where
  events : Nat
  ptr : Nat
  deriving DecidableEq, Repr

/-- What the system calls made while one ready descriptor is handled return. -/
structure EvSys where
  accept_ret : Int
  fcntl_ret : Int
  epoll_add_ret : Int
  read_ret : Int
  epoll_del_ret : Int
  close_ret : Int
  deriving DecidableEq, Repr

/-- What one call of `epoll_wait` delivers: its return value `nfds`, `errno`
when it failed, the array `events` (each entry with the results of the system
calls its handling makes) and the return value of the keepalive `ioctl`. -/
structure WaitResult where
  nfds : Int
  errno : Int
  keepalive_ret : Int
  events : List (epoll_event × EvSys)
  deriving DecidableEq, Repr

/-- Body of the inner `for` loop (lines 185-233): handle one ready descriptor. -/
def handle_event (s : State) (ev : epoll_event) (r : EvSys) : Outcome :=
  let wd_client := slot s.client_list ev.ptr
  if wd_client.fd = s.listen_sock then
    let s1 := s.sys (Op.accept s.listen_sock)
    let conn_sock := r.accept_ret
    if conn_sock = -1 then
      err (s1.say (Msg.perror "accept"))
    else
      let s2 := s1.sys (Op.fcntl_nonblock conn_sock)
      if r.fcntl_ret = -1 then
        err (s2.say (Msg.perror "setnonblocking"))
      else
        let a := alloc_client s2.client_list conn_sock
        let s3 : State := { s2 with client_list := a.2 }
        match a.1 with
        | none => err (s3.say Msg.unable_to_alloc)
        | some new_client =>
          let s4 := s3.sys (Op.epoll_ctl_add s3.epollfd conn_sock (some new_client))
          if r.epoll_add_ret = -1 then
            err (s4.say (Msg.perror "epoll_ctl: add conn_sock"))
          else
            Outcome.running s4
  else
    let cfd := wd_client.fd
    let s1 := s.sys (Op.read cfd)
    let bytes := r.read_ret
    if bytes = -1 then
      err (s1.say (Msg.perror "read"))
    else if bytes > 0 then
      Outcome.running (s1.say (Msg.got_bytes bytes))
    else
      if ev.events &&& EPOLLHUP ≠ 0 ∨ ev.events &&& EPOLLERR ≠ 0 then
        let s2 := (s1.say (Msg.got_event ev.events)).sys (Op.epoll_ctl_del s1.epollfd cfd)
        if r.epoll_del_ret = -1 then
          err (s2.say (Msg.perror "epoll_ctl: del conn_sock"))
        else
          let s3 := s2.sys (Op.close cfd)
          if r.close_ret = -1 then
            err (s3.say (Msg.perror "close conn_sock"))
          else
            let s4 := s3.say Msg.close_client_connection
            Outcome.running { s4 with client_list := free_client s4.client_list (some ev.ptr) }
      else
        Outcome.running s1

/-- The inner `for (n = 0; n < nfds; ++n)` loop over the ready descriptors. -/
def dispatch : State → List (epoll_event × EvSys) → Outcome
  | s, [] => Outcome.running s
  | s, er :: rest =>
    match handle_event s er.1 er.2 with
    | Outcome.running s1 => dispatch s1 rest
    | Outcome.exited c s1 => Outcome.exited c s1

/-- One iteration of `for (;;)` (lines 165-234). -/
def loop_iter (s : State) (w : WaitResult) : Outcome :=
  let s1 := s.sys (Op.epoll_wait s.epollfd)
  if w.nfds = -1 then
    if w.errno = EINTR then
      Outcome.running s1
    else
      err (s1.say (Msg.perror "epoll_pwait"))
  else if w.nfds = 0 then
    let s2 := s1.sys (Op.ioctl_keepalive s1.watchdog_fd)
    Outcome.running (if w.keepalive_ret = -1 then s2.say (Msg.perror "watchdog update failed") else s2)
  else
    dispatch s1 (w.events.take w.nfds.toNat)

/-- The loop `for (;;)` run for as many iterations as there are wait results. -/
def run_loop : State → List WaitResult → Outcome
  | s, [] => Outcome.running s
  | s, w :: ws =>
    match loop_iter s w with
    | Outcome.running s1 => run_loop s1 ws
    | Outcome.exited c s1 => Outcome.exited c s1

/-- The function `main`, observed for the first `ws.length` iterations of its loop. -/
def main (e : StartupEnv) (ws : List WaitResult) : Outcome :=
  match main_startup e with
  | Outcome.running s => run_loop s ws
  | Outcome.exited c s => Outcome.exited c s

/-! ## Observations on a history -/

/-- Is this system call the keepalive `ioctl`? -/
def Op.isKeepalive : Op → Bool
  | Op.ioctl_keepalive _ => true
  | _ => false

/-- Number of keepalive `ioctl`s in a history. -/
def keepalives (ops : List Op) : Nat := ops.countP Op.isKeepalive

/-- Slot `i` of the table holds a registered client (`fd != 0`). -/
def registered (cl : List wd_client_t) (i : Nat) : Prop :=
  i < cl.length ∧ (slot cl i).fd ≠ 0

instance (cl : List wd_client_t) (i : Nat) : Decidable (registered cl i) := by
  unfold registered; infer_instance

/-- The state an outcome carries. -/
def Outcome.state : Outcome → State
  | Outcome.exited _ s => s
  | Outcome.running s => s

/-- The exit status, when the process has exited. -/
def Outcome.code : Outcome → Option Int
  | Outcome.exited c _ => some c
  | Outcome.running _ => none

/-- The health test the specification words for one client:
`now - last_heartbeat < deadline_seconds`. -/
def spec_client_healthy (now last_heartbeat deadline_seconds : Int) : Prop :=
  now - last_heartbeat < deadline_seconds

instance (a b c : Int) : Decidable (spec_client_healthy a b c) := by
  unfold spec_client_healthy; infer_instance

/-- The aggregate verdict the specification words: every registered slot passes
the health test. The program stores neither a last-heartbeat time nor a
deadline that it reads, so both are given from outside, per slot. -/
def spec_all_healthy (cl : List wd_client_t) (now : Int) (last_heartbeat deadline : Nat → Int) : Prop :=
  ∀ i, registered cl i → spec_client_healthy now (last_heartbeat i) (deadline i)

/-- The wait returned at least one ready descriptor, and `events` holds as many
entries as it announced. -/
def busy (w : WaitResult) : Prop := 0 < w.nfds ∧ w.events.length = w.nfds.toNat

instance (w : WaitResult) : Decidable (busy w) := by
  unfold busy; infer_instance

/-! ## Sample inputs -/

/-- Every start-up call succeeds, nothing is inherited: the device is descriptor 3,
the fresh listening socket 4, the epoll instance 5. -/
def env_fresh : StartupEnv :=
  { stat_ret := 0, open_ret := 3, settimeout_ret := 0, settimeout_out := 20, getsupport_ret := 0,
    wd_write_ret := 1, wd_close_ret := 0, sd_listen_fds_ret := 0, socket_ret := 4, bind_ret := 0,
    listen_ret := 0, epoll_create_ret := 5, epoll_ctl_ret := 0 }

/-- Every call succeeds and one socket is inherited (descriptor 3): the device is
descriptor 4, the epoll instance 5. -/
def env_inherited : StartupEnv :=
  { env_fresh with open_ret := 4, sd_listen_fds_ret := 1 }

/-- As `env_fresh`, but the socket-activation query fails and returns -1. -/
def env_query_error : StartupEnv :=
  { env_fresh with sd_listen_fds_ret := -1 }

/-- The wait times out: no descriptor is ready. -/
def timeout_wait : WaitResult := { nfds := 0, errno := 0, keepalive_ret := 0, events := [] }

/-- System-call results for one ready descriptor: `accept` returns `conn`, `read`
returns `bytes`, every other call succeeds with 0. -/
def ev_results (conn bytes : Int) : EvSys :=
  { accept_ret := conn, fcntl_ret := 0, epoll_add_ret := 0, read_ret := bytes,
    epoll_del_ret := 0, close_ret := 0 }

/-- The listener (slot 0) is ready and `accept` returns `conn`. -/
def accept_ready (conn : Int) : WaitResult :=
  { nfds := 1, errno := 0, keepalive_ret := 0, events := [(⟨EPOLLIN, 0⟩, ev_results conn 0)] }

/-- The client in slot `ptr` is ready with event mask `mask` and `read` returns `bytes`. -/
def client_ready (ptr : Nat) (mask : Nat) (bytes : Int) : WaitResult :=
  { nfds := 1, errno := 0, keepalive_ret := 0, events := [(⟨mask, ptr⟩, ev_results 0 bytes)] }

/-- The state after start-up with `env_fresh` and one accepted client (descriptor 6,
slot 1). -/
def one_client_state : State := (main env_fresh [accept_ready 6]).state

/-- Ninety-nine iterations that each accept one connection: descriptors 6 to 104. -/
def accept_run : List WaitResult :=
  (List.range (MAX_CLIENTS - 1)).map (fun i => accept_ready ((i : Int) + 6))

/-- The state after start-up with `env_inherited` and ninety-nine accepted
clients: the listener and the clients occupy all hundred slots. -/
def full_state : State := (main env_inherited accept_run).state

/-- The system calls of a start-up up to and including `sd_listen_fds`, when the
device was opened, programmed and identified without error. -/
def startup_prefix (e : StartupEnv) : List Op :=
  [Op.stat Path.WATCHDOG_DEV] ++ (if e.stat_ret = -1 then [Op.system_modprobe] else []) ++
    [Op.open_wronly Path.WATCHDOG_DEV, Op.ioctl_settimeout e.open_ret WATCHDOG_TIMEOUT_INIT,
      Op.ioctl_getsupport e.open_ret, Op.sd_listen_fds]

/-- A later call on the client table: `alloc_client(fd)` or `free_client(p)`. -/
inductive TableCall where
  | alloc (fd : Int)
  | free (p : Option Nat)
  deriving DecidableEq, Repr

/-- Make the calls in order on the table; the pointers the `alloc_client` calls
returned, in order, and the final table. -/
def run_calls : List wd_client_t → List TableCall → List (Option Nat) × List wd_client_t
  | cl, [] => ([], cl)
  | cl, TableCall.alloc fd :: cs =>
    ((alloc_client cl fd).1 :: (run_calls (alloc_client cl fd).2 cs).1,
      (run_calls (alloc_client cl fd).2 cs).2)
  | cl, TableCall.free p :: cs => run_calls (free_client cl p) cs

/-- A table with every slot occupied: slot `i` holds descriptor `i + 3`. -/
def full_table : List wd_client_t :=
  (List.range MAX_CLIENTS).map (fun i => { fd := (i : Int) + 3, time := memset_int 1 })

/-! ## Basic facts about the table -/

theorem memset_int_one : memset_int 1 = 16843009 := by decide

theorem slot_set_eq (cl : List wd_client_t) (i : Nat) (c : wd_client_t) (h : i < cl.length) :
    slot (cl.set i c) i = c := by
  simp [slot, List.getD_eq_getElem?_getD, List.getElem?_set, h]

theorem slot_set_ne (cl : List wd_client_t) (i j : Nat) (c : wd_client_t) (h : i ≠ j) :
    slot (cl.set i c) j = slot cl j := by
  simp [slot, List.getD_eq_getElem?_getD, List.getElem?_set, h]

/-- When the loop of `alloc_client` finds nothing, every inspected slot is occupied
and the table is returned as it was. -/
theorem alloc_client_loop_none (fd : Int) (cl : List wd_client_t) :
    ∀ k i, (∀ j, i ≤ j → j < i + k → (slot cl j).fd ≠ 0) →
      alloc_client_loop fd cl k i = (none, cl) := by
  intro k
  induction k with
  | zero => intro i _; rfl
  | succ k ih =>
    intro i h
    have h0 : (slot cl i).fd ≠ 0 := h i (Nat.le_refl i) (by omega)
    rw [alloc_client_loop, if_neg h0]
    exact ih (i + 1) (fun j h1 h2 => h j (by omega) (by omega))

/-- When an inspected slot is free, the loop of `alloc_client` returns the first such slot. -/
theorem alloc_client_loop_some (fd : Int) (cl : List wd_client_t) :
    ∀ k i, (∃ j, i ≤ j ∧ j < i + k ∧ (slot cl j).fd = 0) →
      ∃ m, i ≤ m ∧ m < i + k ∧ (slot cl m).fd = 0 ∧ (∀ j, i ≤ j → j < m → (slot cl j).fd ≠ 0) ∧
        alloc_client_loop fd cl k i = (some m, cl.set m { fd := fd, time := memset_int 1 }) := by
  intro k
  induction k with
  | zero => intro i h; obtain ⟨j, h1, h2, _⟩ := h; omega
  | succ k ih =>
    intro i h
    by_cases h0 : (slot cl i).fd = 0
    · refine ⟨i, Nat.le_refl i, by omega, h0, fun j h1 h2 => by omega, ?_⟩
      rw [alloc_client_loop, if_pos h0]
    · obtain ⟨j, h1, h2, h3⟩ := h
      have hj : i + 1 ≤ j := by
        rcases Nat.eq_or_lt_of_le h1 with e | l
        · subst e; exact absurd h3 h0
        · exact l
      obtain ⟨m, m1, m2, m3, m4, m5⟩ := ih (i + 1) ⟨j, hj, by omega, h3⟩
      refine ⟨m, by omega, by omega, m3, ?_, ?_⟩
      · intro x x1 x2
        rcases Nat.eq_or_lt_of_le x1 with e | l
        · subst e; exact h0
        · exact m4 x l x2
      · rw [alloc_client_loop, if_neg h0]; exact m5

/-- The two ways `alloc_client` can end. -/
theorem alloc_client_cases (cl : List wd_client_t) (fd : Int) :
    ((∀ j, j < MAX_CLIENTS → (slot cl j).fd ≠ 0) ∧ alloc_client cl fd = (none, cl)) ∨
    ∃ m, m < MAX_CLIENTS ∧ (slot cl m).fd = 0 ∧ (∀ j, j < m → (slot cl j).fd ≠ 0) ∧
      alloc_client cl fd = (some m, cl.set m { fd := fd, time := memset_int 1 }) := by
  by_cases h : ∃ j, j < MAX_CLIENTS ∧ (slot cl j).fd = 0
  · right
    obtain ⟨j, h1, h2⟩ := h
    obtain ⟨m, _, m2, m3, m4, m5⟩ :=
      alloc_client_loop_some fd cl MAX_CLIENTS 0 ⟨j, Nat.zero_le j, by omega, h2⟩
    exact ⟨m, by omega, m3, fun x hx => m4 x (Nat.zero_le x) hx, m5⟩
  · left
    have h' : ∀ j, j < MAX_CLIENTS → (slot cl j).fd ≠ 0 := fun j hj hz => h ⟨j, hj, hz⟩
    exact ⟨h', alloc_client_loop_none fd cl MAX_CLIENTS 0 (fun j _ h2 => h' j (by omega))⟩

/-- An occupied slot is never returned by `alloc_client` and survives the call. -/
theorem alloc_client_keeps_occupied (cl : List wd_client_t) (fd : Int) (m : Nat)
    (hm : (slot cl m).fd ≠ 0) :
    (alloc_client cl fd).1 ≠ some m ∧ slot (alloc_client cl fd).2 m = slot cl m := by
  rcases alloc_client_cases cl fd with ⟨_, h⟩ | ⟨x, _, x2, _, h⟩
  · rw [h]; simp
  · have hne : x ≠ m := fun e => hm (e ▸ x2)
    rw [h]
    exact ⟨fun e => hne (Option.some.inj e), slot_set_ne cl x m _ hne⟩

/-- While a slot is occupied and not freed, no later call hands it out. -/
theorem run_calls_keeps_occupied (m : Nat) :
    ∀ (cs : List TableCall) (cl : List wd_client_t), (slot cl m).fd ≠ 0 →
      TableCall.free (some m) ∉ cs → some m ∉ (run_calls cl cs).1 := by
  intro cs
  induction cs with
  | nil => intro cl _ _; simp [run_calls]
  | cons c cs ih =>
    intro cl hm hc
    have hc1 : TableCall.free (some m) ≠ c := fun e => hc (by simp [e])
    have hc2 : TableCall.free (some m) ∉ cs := fun e => hc (by simp [e])
    cases c with
    | alloc fd =>
      obtain ⟨a1, a2⟩ := alloc_client_keeps_occupied cl fd m hm
      have := ih (alloc_client cl fd).2 (by rw [a2]; exact hm) hc2
      simp only [run_calls, List.mem_cons, not_or]
      exact ⟨fun e => a1 e.symm, this⟩
    | free p =>
      simp only [run_calls]
      apply ih _ _ hc2
      cases p with
      | none => simpa [free_client] using hm
      | some i =>
        have hne : i ≠ m := fun e => hc1 (by rw [e])
        simp only [free_client]
        rw [slot_set_ne cl i m _ hne]; exact hm

/-! ## Keepalives in the history -/

theorem keepalives_sys (s : State) (o : Op) :
    keepalives (s.sys o).ops = keepalives s.ops + (if o.isKeepalive then 1 else 0) := by
  cases h : o.isKeepalive <;> simp [keepalives, State.sys, List.countP_append, h]

theorem ops_say (s : State) (m : Msg) : (s.say m).ops = s.ops := rfl

theorem state_running (s : State) : (Outcome.running s).state = s := rfl

theorem state_exited (c : Int) (s : State) : (Outcome.exited c s).state = s := rfl

theorem err_state (s : State) : (err s).state = s.sys (Op.unlink Path.MY_SOCK_PATH) := rfl

theorem err_code (s : State) : (err s).code = some EXIT_FAILURE := rfl

/-- Handling a ready descriptor never issues a keepalive. -/
theorem keepalives_handle_event (s : State) (ev : epoll_event) (r : EvSys) :
    keepalives (handle_event s ev r).state.ops = keepalives s.ops := by
  unfold handle_event
  simp only []
  split_ifs <;> try split
  all_goals
    simp [err_state, state_running, state_exited, ops_say, keepalives_sys, Op.isKeepalive]

/-- The inner loop over the ready descriptors never issues a keepalive. -/
theorem keepalives_dispatch :
    ∀ (evs : List (epoll_event × EvSys)) (s : State),
      keepalives (dispatch s evs).state.ops = keepalives s.ops := by
  intro evs
  induction evs with
  | nil => intro s; rfl
  | cons er rest ih =>
    intro s
    have h := keepalives_handle_event s er.1 er.2
    unfold dispatch
    cases hh : handle_event s er.1 er.2 with
    | exited c s1 => rw [hh] at h; simpa [Outcome.state] using h
    | running s1 =>
      rw [hh] at h
      simp only [Outcome.state] at h
      simp only []
      rw [ih s1, h]

/-- One loop iteration issues one keepalive when the wait returned 0 and none otherwise. -/
theorem keepalives_loop_iter (s : State) (w : WaitResult) :
    keepalives (loop_iter s w).state.ops = keepalives s.ops + (if w.nfds = 0 then 1 else 0) := by
  unfold loop_iter
  simp only []
  by_cases h1 : w.nfds = -1
  · have h0 : w.nfds ≠ 0 := by omega
    rw [if_pos h1, if_neg h0]
    split_ifs <;>
      simp [err_state, state_running, state_exited, ops_say, keepalives_sys, Op.isKeepalive]
  · rw [if_neg h1]
    by_cases h0 : w.nfds = 0
    · rw [if_pos h0, if_pos h0]
      split_ifs <;>
        simp [err_state, state_running, state_exited, ops_say, keepalives_sys, Op.isKeepalive]
    · rw [if_neg h0, if_neg h0, keepalives_dispatch]
      simp [keepalives_sys, Op.isKeepalive]

/-- A run of iterations none of which timed out issues no keepalive. -/
theorem keepalives_run_loop_busy :
    ∀ (ws : List WaitResult) (s : State), (∀ w ∈ ws, w.nfds ≠ 0) →
      keepalives (run_loop s ws).state.ops = keepalives s.ops := by
  intro ws
  induction ws with
  | nil => intro s _; rfl
  | cons w ws ih =>
    intro s hb
    have h := keepalives_loop_iter s w
    rw [if_neg (hb w (by simp)), Nat.add_zero] at h
    unfold run_loop
    cases hh : loop_iter s w with
    | exited c s1 => rw [hh] at h; simpa [Outcome.state] using h
    | running s1 =>
      rw [hh] at h
      simp only [Outcome.state] at h
      simp only []
      rw [ih s1 (fun x hx => hb x (by simp [hx])), h]

/-- A client descriptor that delivers bytes: the iteration reads and goes back to the wait. -/
theorem loop_iter_heartbeat (s : State) (ptr mask : Nat) (bytes : Int)
    (hc : (slot s.client_list ptr).fd ≠ s.listen_sock) (hb : 0 < bytes) :
    loop_iter s (client_ready ptr mask bytes) =
      Outcome.running (((s.sys (Op.epoll_wait s.epollfd)).sys
        (Op.read (slot s.client_list ptr).fd)).say (Msg.got_bytes bytes)) := by
  have h1 : bytes ≠ -1 := by omega
  simp [loop_iter, client_ready, ev_results, dispatch, handle_event, State.sys, State.say, hc, h1, hb]

/-- Heartbeats from one client keep the loop running for any number of iterations. -/
theorem run_loop_heartbeats (ptr mask : Nat) (bytes : Int) (hb : 0 < bytes) :
    ∀ (n : Nat) (s : State), (slot s.client_list ptr).fd ≠ s.listen_sock →
      (run_loop s (List.replicate n (client_ready ptr mask bytes))).code = none := by
  intro n
  induction n with
  | zero => intro s _; rfl
  | succ n ih =>
    intro s hc
    rw [List.replicate_succ, run_loop, loop_iter_heartbeat s ptr mask bytes hc hb]
    exact ih _ hc

/-- On the zero-initialised table `alloc_client` hands out slot 0. -/
theorem alloc_client_init (fd : Int) :
    alloc_client State.init.client_list fd =
      (some 0, State.init.client_list.set 0 { fd := fd, time := memset_int 1 }) := by
  show alloc_client_loop fd State.init.client_list (99 + 1) 0 = _
  rw [alloc_client_loop, if_pos (by decide)]

theorem alloc_client_init_fst (fd : Int) :
    (alloc_client (List.replicate MAX_CLIENTS { fd := 0, time := 0 }) fd).1 = some 0 :=
  congrArg Prod.fst (alloc_client_init fd)

/-! ## The claims -/

/-- C1, as stated, fails: in the state with one accepted client (slot 1), taken as
last heard of at time 0 with a deadline of 20 seconds, the client is not
healthy at time 25, and the tick issues the keepalive all the same. -/
theorem tick_keepalive_ignores_health :
    registered one_client_state.client_list 1 ∧
    ¬ spec_client_healthy 25 0 20 ∧
    (loop_iter one_client_state timeout_wait).state.ops =
      one_client_state.ops ++ [Op.epoll_wait 5, Op.ioctl_keepalive 3] ∧
    ¬ (keepalives (loop_iter one_client_state timeout_wait).state.ops
          = keepalives one_client_state.ops + 1 ↔
        spec_all_healthy one_client_state.client_list 25 (fun _ => 0) (fun _ => 20)) := by
  have hreg : registered one_client_state.client_list 1 := by decide
  have hun : ¬ spec_client_healthy 25 0 20 := by decide
  refine ⟨hreg, hun, by decide, ?_⟩
  intro h
  have hk : keepalives (loop_iter one_client_state timeout_wait).state.ops
      = keepalives one_client_state.ops + 1 := by
    rw [keepalives_loop_iter]; rfl
  exact hun (h.mp hk 1 hreg)

/-- C1, amended: on every tick (the wait returned 0) the keepalive ioctl is issued on
the watchdog device, whatever the client table holds; the tick reads and
changes no table entry and the loop goes on. -/
theorem tick_keepalive_unconditional (s : State) (w : WaitResult) (h : w.nfds = 0) :
    ∃ s1, loop_iter s w = Outcome.running s1 ∧
      s1.ops = s.ops ++ [Op.epoll_wait s.epollfd, Op.ioctl_keepalive s.watchdog_fd] ∧
      keepalives s1.ops = keepalives s.ops + 1 ∧
      s1.client_list = s.client_list ∧ s1.watchdog_fd = s.watchdog_fd := by
  have h1 : w.nfds ≠ -1 := by omega
  have hk := keepalives_loop_iter s w
  rw [if_pos h] at hk
  by_cases hr : w.keepalive_ret = -1
  · refine ⟨((s.sys (Op.epoll_wait s.epollfd)).sys (Op.ioctl_keepalive s.watchdog_fd)).say
        (Msg.perror "watchdog update failed"), ?_, ?_, ?_, rfl, rfl⟩
    · simp [loop_iter, h, hr, State.sys]
    · simp [State.sys, State.say]
    · simp [keepalives_sys, ops_say, Op.isKeepalive]
  · refine ⟨(s.sys (Op.epoll_wait s.epollfd)).sys (Op.ioctl_keepalive s.watchdog_fd),
        ?_, ?_, ?_, rfl, rfl⟩
    · simp [loop_iter, h, hr, State.sys]
    · simp [State.sys]
    · simp [keepalives_sys, Op.isKeepalive]

theorem tick_keepalive_unconditional_witness :
    ∃ s1, loop_iter one_client_state timeout_wait = Outcome.running s1 ∧
      s1.ops = one_client_state.ops ++
        [Op.epoll_wait one_client_state.epollfd, Op.ioctl_keepalive one_client_state.watchdog_fd] ∧
      keepalives s1.ops = keepalives one_client_state.ops + 1 ∧
      s1.client_list = one_client_state.client_list ∧
      s1.watchdog_fd = one_client_state.watchdog_fd :=
  tick_keepalive_unconditional one_client_state timeout_wait (by decide)

/-- C9, as stated, fails: there is no bound on the length of a run of consecutive
iterations that each handle a ready descriptor, keep the loop running and
issue no keepalive (a client that sends a byte before every wait times out). -/
theorem busy_run_starves_keepalive :
    ¬ ∃ B : Nat, ∀ (s : State) (ws : List WaitResult),
        (∀ w ∈ ws, busy w) →
        (run_loop s ws).code = none →
        keepalives (run_loop s ws).state.ops = keepalives s.ops →
        ws.length ≤ B := by
  rintro ⟨B, h⟩
  have hw : busy (client_ready 1 EPOLLIN 1) := by decide
  have hall : ∀ w ∈ List.replicate (B + 1) (client_ready 1 EPOLLIN 1), busy w := by
    intro w hm
    rw [List.eq_of_mem_replicate hm]; exact hw
  have hrun := run_loop_heartbeats 1 EPOLLIN 1 (by decide) (B + 1) one_client_state (by decide)
  have hk := keepalives_run_loop_busy (List.replicate (B + 1) (client_ready 1 EPOLLIN 1))
    one_client_state (fun w hm => by have := (hall w hm).1; omega)
  have := h one_client_state _ hall hrun hk
  simp at this

/-- C9, amended: an iteration issues a keepalive exactly when its wait returned 0,
and a run of consecutive iterations that each handle a ready descriptor
issues none, however long the run is. -/
theorem keepalive_only_on_timeout (s : State) (ws : List WaitResult)
    (hbusy : ∀ w ∈ ws, busy w) :
    (∀ (t : State) (w : WaitResult),
      keepalives (loop_iter t w).state.ops = keepalives t.ops + (if w.nfds = 0 then 1 else 0)) ∧
    keepalives (run_loop s ws).state.ops = keepalives s.ops :=
  ⟨keepalives_loop_iter,
    keepalives_run_loop_busy ws s (fun w hm => by have := (hbusy w hm).1; omega)⟩

theorem keepalive_only_on_timeout_witness :
    (∀ (t : State) (w : WaitResult),
      keepalives (loop_iter t w).state.ops = keepalives t.ops + (if w.nfds = 0 then 1 else 0)) ∧
    keepalives (run_loop one_client_state
        [client_ready 1 EPOLLIN 1, accept_ready 7, client_ready 2 EPOLLIN 3]).state.ops
      = keepalives one_client_state.ops :=
  keepalive_only_on_timeout one_client_state
    [client_ready 1 EPOLLIN 1, accept_ready 7, client_ready 2 EPOLLIN 3] (by decide)


/-- C4: on a table whose MAX_CLIENTS slots are all occupied, `alloc_client(fd)`
returns NULL for every `fd` and hands back the table with every slot (fd and
time) as it was. -/
theorem alloc_client_full_rejects (cl : List wd_client_t) (fd : Int)
    (hlen : cl.length = MAX_CLIENTS)
    (hfull : ∀ i, i < MAX_CLIENTS → (slot cl i).fd ≠ 0) :
    (alloc_client cl fd).1 = none ∧ (alloc_client cl fd).2 = cl ∧
      (alloc_client cl fd).2.length = MAX_CLIENTS ∧
      ∀ i, slot (alloc_client cl fd).2 i = slot cl i := by
  have h := alloc_client_loop_none fd cl MAX_CLIENTS 0 (fun j _ h2 => hfull j (by omega))
  have h' : alloc_client cl fd = (none, cl) := h
  rw [h']
  exact ⟨rfl, rfl, hlen, fun _ => rfl⟩

set_option maxRecDepth 100000 in
theorem alloc_client_full_rejects_witness :
    (alloc_client full_table 200).1 = none ∧ (alloc_client full_table 200).2 = full_table ∧
      (alloc_client full_table 200).2.length = MAX_CLIENTS ∧
      ∀ i, slot (alloc_client full_table 200).2 i = slot full_table i :=
  alloc_client_full_rejects full_table 200 (by decide) (by decide)

/-- C7, as stated, fails: on the zero-initialised table `alloc_client(5)` creates
its entry in slot 0, and the time field of that entry is 16843009 (every byte
0x01), not the watchdog timeout of 20 seconds. -/
theorem alloc_client_time_not_timeout :
    (∃ i, i < MAX_CLIENTS ∧ (slot State.init.client_list i).fd = 0) ∧
    State.init.watchdog_timeout = 20 ∧
    (alloc_client State.init.client_list 5).1 = some 0 ∧
    (slot (alloc_client State.init.client_list 5).2 0).time = 16843009 ∧
    ¬ ∃ i, (alloc_client State.init.client_list 5).1 = some i ∧
        (slot (alloc_client State.init.client_list 5).2 i).time = State.init.watchdog_timeout := by
  refine ⟨⟨0, by decide, by decide⟩, by decide, by decide, by decide, ?_⟩
  rintro ⟨i, h1, h2⟩
  have h0 : (alloc_client State.init.client_list 5).1 = some 0 := by decide
  rw [h0] at h1
  have hi : i = 0 := (Option.some.inj h1).symm
  subst hi
  revert h2
  decide

/-- C7, amended: on a table with a free slot, the entry `alloc_client(fd)` creates
has its time field equal to 16843009, the `int` whose four bytes are all 0x01
(the fill byte of the `memset`); it is never the watchdog timeout of 20 seconds. -/
theorem alloc_client_time_memset (cl : List wd_client_t) (fd : Int)
    (hlen : cl.length = MAX_CLIENTS)
    (hfree : ∃ i, i < MAX_CLIENTS ∧ (slot cl i).fd = 0) :
    ∃ m, m < MAX_CLIENTS ∧ (alloc_client cl fd).1 = some m ∧
      (slot (alloc_client cl fd).2 m).time = 16843009 ∧
      (slot (alloc_client cl fd).2 m).time ≠ WATCHDOG_TIMEOUT_INIT := by
  rcases alloc_client_cases cl fd with ⟨hfull, _⟩ | ⟨m, m1, _, _, h⟩
  · obtain ⟨i, i1, i2⟩ := hfree
    exact absurd i2 (hfull i i1)
  · have ht : (slot (alloc_client cl fd).2 m).time = 16843009 := by
      rw [h]
      show (slot (cl.set m _) m).time = 16843009
      rw [slot_set_eq cl m _ (by omega)]
      exact memset_int_one
    refine ⟨m, m1, by rw [h], ht, ?_⟩
    rw [ht]; decide

theorem alloc_client_time_memset_witness :
    ∃ m, m < MAX_CLIENTS ∧ (alloc_client State.init.client_list 7).1 = some m ∧
      (slot (alloc_client State.init.client_list 7).2 m).time = 16843009 ∧
      (slot (alloc_client State.init.client_list 7).2 m).time ≠ WATCHDOG_TIMEOUT_INIT :=
  alloc_client_time_memset State.init.client_list 7 (by decide) ⟨0, by decide, by decide⟩

/-- C10: on a table with a free slot, `alloc_client(fd)` returns the lowest-indexed
free slot `m`, stores `fd` in it and leaves every other slot unchanged. Slot `m`
counts as occupied afterwards exactly when `fd` is not 0, and exactly then no
later sequence of `alloc_client` and `free_client` calls that does not free `m`
is handed `m` again; for `fd = 0` the very next `alloc_client` returns `m`
again. After `free_client` on `m` the slot reads as free. -/
theorem alloc_client_lowest_free (cl : List wd_client_t) (fd : Int)
    (hlen : cl.length = MAX_CLIENTS)
    (hfree : ∃ i, i < MAX_CLIENTS ∧ (slot cl i).fd = 0) :
    ∃ m, m < MAX_CLIENTS ∧ (alloc_client cl fd).1 = some m ∧
      (slot cl m).fd = 0 ∧ (∀ j, j < m → (slot cl j).fd ≠ 0) ∧
      (slot (alloc_client cl fd).2 m).fd = fd ∧
      (alloc_client cl fd).2.length = MAX_CLIENTS ∧
      (∀ j, j ≠ m → slot (alloc_client cl fd).2 j = slot cl j) ∧
      (registered (alloc_client cl fd).2 m ↔ fd ≠ 0) ∧
      ((∀ cs, TableCall.free (some m) ∉ cs →
          some m ∉ (run_calls (alloc_client cl fd).2 cs).1) ↔ fd ≠ 0) ∧
      (fd = 0 → ∀ fd2, (alloc_client (alloc_client cl fd).2 fd2).1 = some m) ∧
      (slot (free_client (alloc_client cl fd).2 (some m)) m).fd = 0 := by
  rcases alloc_client_cases cl fd with ⟨hfull, _⟩ | ⟨m, m1, m2, m3, h⟩
  · obtain ⟨i, i1, i2⟩ := hfree
    exact absurd i2 (hfull i i1)
  · have hml : m < cl.length := by omega
    have hfd : (slot (alloc_client cl fd).2 m).fd = fd := by
      rw [h]
      show (slot (cl.set m _) m).fd = fd
      rw [slot_set_eq cl m _ hml]
    have hlen2 : (alloc_client cl fd).2.length = MAX_CLIENTS := by
      rw [h]; simpa using hlen
    have hother : ∀ j, j ≠ m → slot (alloc_client cl fd).2 j = slot cl j := by
      intro j hj
      rw [h]
      exact slot_set_ne cl m j _ (fun e => hj e.symm)
    have hnext : fd = 0 → ∀ fd2, (alloc_client (alloc_client cl fd).2 fd2).1 = some m := by
      intro hz fd2
      rcases alloc_client_cases (alloc_client cl fd).2 fd2 with ⟨hfull, _⟩ | ⟨x, _, x2, x3, hx⟩
      · exact absurd (hfd.trans hz) (hfull m m1)
      · rw [hx]
        show some x = some m
        congr 1
        rcases Nat.lt_trichotomy x m with l | e | g
        · exact absurd ((hother x (by omega)) ▸ x2) (m3 x l)
        · exact e
        · exact absurd (hfd.trans hz) (x3 m g)
    refine ⟨m, m1, by rw [h], m2, m3, hfd, hlen2, hother, ?_, ?_, hnext, ?_⟩
    · unfold registered
      rw [hfd, hlen2]
      exact ⟨fun hr => hr.2, fun hr => ⟨m1, hr⟩⟩
    · constructor
      · intro hall hz
        have h1 := hall [TableCall.alloc 0] (by simp)
        apply h1
        simp [run_calls, hnext hz 0]
      · intro hnz cs hcs
        exact run_calls_keeps_occupied m cs _ (by rw [hfd]; exact hnz) hcs
    · show (slot (List.set _ m _) m).fd = 0
      rw [slot_set_eq _ m _ (by omega)]

theorem alloc_client_lowest_free_witness :
    ∃ m, m < MAX_CLIENTS ∧ (alloc_client State.init.client_list 5).1 = some m ∧
      (slot State.init.client_list m).fd = 0 ∧
      (∀ j, j < m → (slot State.init.client_list j).fd ≠ 0) ∧
      (slot (alloc_client State.init.client_list 5).2 m).fd = 5 ∧
      (alloc_client State.init.client_list 5).2.length = MAX_CLIENTS ∧
      (∀ j, j ≠ m → slot (alloc_client State.init.client_list 5).2 j
          = slot State.init.client_list j) ∧
      (registered (alloc_client State.init.client_list 5).2 m ↔ (5 : Int) ≠ 0) ∧
      ((∀ cs, TableCall.free (some m) ∉ cs →
          some m ∉ (run_calls (alloc_client State.init.client_list 5).2 cs).1) ↔ (5 : Int) ≠ 0) ∧
      ((5 : Int) = 0 → ∀ fd2,
          (alloc_client (alloc_client State.init.client_list 5).2 fd2).1 = some m) ∧
      (slot (free_client (alloc_client State.init.client_list 5).2 (some m)) m).fd = 0 :=
  alloc_client_lowest_free State.init.client_list 5 (by decide) ⟨0, by decide, by decide⟩

/-- C6: `watchdog_close` is idempotent. A second call changes nothing at all, the
state after a call has `watchdog_fd = -1`, an armed device sees exactly the
write of "V" followed by the close of the handle, and a call on a disarmed
device makes no system call. -/
theorem watchdog_close_idempotent (s : State) (w1 c1 w2 c2 : Int) :
    watchdog_close (watchdog_close s w1 c1) w2 c2 = watchdog_close s w1 c1 ∧
    (watchdog_close s w1 c1).watchdog_fd = -1 ∧
    (watchdog_close (watchdog_close s w1 c1) w2 c2).ops = (watchdog_close s w1 c1).ops ∧
    (watchdog_close s w1 c1).ops =
      (if s.watchdog_fd = -1 then s.ops
       else s.ops ++ [Op.write s.watchdog_fd ['V'], Op.close s.watchdog_fd]) ∧
    (if s.watchdog_fd = -1 then watchdog_close s w1 c1 = s else True) := by
  have hfd : (watchdog_close s w1 c1).watchdog_fd = -1 := rfl
  have hidem : watchdog_close (watchdog_close s w1 c1) w2 c2 = watchdog_close s w1 c1 := by
    generalize watchdog_close s w1 c1 = t at hfd
    cases t
    simp only at hfd
    subst hfd
    rfl
  refine ⟨hidem, hfd, by rw [hidem], ?_, ?_⟩
  · by_cases h : s.watchdog_fd = -1
    · simp [watchdog_close, h]
    · by_cases hw : w1 = -1 <;> by_cases hc : c1 = -1 <;>
        simp [watchdog_close, h, hw, hc, State.sys, State.say]
  · by_cases h : s.watchdog_fd = -1
    · rw [if_pos h]
      cases s
      simp only at h
      subst h
      rfl
    · rw [if_neg h]; trivial

/-- C2, as stated, fails: for the client in slot 1 (descriptor 6), a zero-byte read
whose event mask is EPOLLIN alone, and a read of 5 bytes whose mask carries
EPOLLHUP, both only read: nothing is deleted from the epoll set or closed,
and the client stays registered. -/
theorem client_kept_on_eof_or_hangup_alone :
    (slot one_client_state.client_list 1).fd = 6 ∧
    handle_event one_client_state ⟨EPOLLIN, 1⟩ (ev_results 0 0)
      = Outcome.running (one_client_state.sys (Op.read 6)) ∧
    registered (handle_event one_client_state ⟨EPOLLIN, 1⟩ (ev_results 0 0)).state.client_list 1 ∧
    handle_event one_client_state ⟨EPOLLIN ||| EPOLLHUP, 1⟩ (ev_results 0 5)
      = Outcome.running ((one_client_state.sys (Op.read 6)).say (Msg.got_bytes 5)) ∧
    registered
      (handle_event one_client_state ⟨EPOLLIN ||| EPOLLHUP, 1⟩ (ev_results 0 5)).state.client_list 1 := by
  refine ⟨by decide, by decide, by decide, by decide, by decide⟩

/-- C2, amended: for a ready descriptor of a registered client, the descriptor is
deleted from the epoll set, closed and its entry freed (fd set to 0, the client
no longer registered) when the read returns zero bytes and the event mask
reports EPOLLHUP or EPOLLERR and both the delete and the close succeed; in
every other case the client table is left as it was. -/
theorem client_removed_on_eof_with_hangup (s : State) (ev : epoll_event) (r : EvSys)
    (hptr : ev.ptr < s.client_list.length)
    (hcl : (slot s.client_list ev.ptr).fd ≠ s.listen_sock)
    (hret : -1 ≤ r.read_ret) :
    if r.read_ret = 0 ∧ (ev.events &&& EPOLLHUP ≠ 0 ∨ ev.events &&& EPOLLERR ≠ 0) ∧
        r.epoll_del_ret ≠ -1 ∧ r.close_ret ≠ -1 then
      (∃ s1, handle_event s ev r = Outcome.running s1 ∧
        s1.ops = s.ops ++ [Op.read (slot s.client_list ev.ptr).fd,
          Op.epoll_ctl_del s.epollfd (slot s.client_list ev.ptr).fd,
          Op.close (slot s.client_list ev.ptr).fd] ∧
        s1.client_list = free_client s.client_list (some ev.ptr) ∧
        (slot s1.client_list ev.ptr).fd = 0 ∧
        ¬ registered s1.client_list ev.ptr ∧
        ∀ j, j ≠ ev.ptr → slot s1.client_list j = slot s.client_list j)
    else
      (handle_event s ev r).state.client_list = s.client_list := by
  split_ifs with hc
  · obtain ⟨h0, hm, hd, hcz⟩ := hc
    have hne : r.read_ret ≠ -1 := by omega
    have hpos : ¬ r.read_ret > 0 := by omega
    have hfree : (slot (free_client s.client_list (some ev.ptr)) ev.ptr).fd = 0 := by
      show (slot (List.set _ _ _) ev.ptr).fd = 0
      rw [slot_set_eq _ _ _ hptr]
    refine ⟨{ (((((s.sys (Op.read (slot s.client_list ev.ptr).fd)).say
        (Msg.got_event ev.events)).sys
        (Op.epoll_ctl_del s.epollfd (slot s.client_list ev.ptr).fd)).sys
        (Op.close (slot s.client_list ev.ptr).fd)).say Msg.close_client_connection) with
        client_list := free_client s.client_list (some ev.ptr) },
      ?_, ?_, rfl, hfree, fun hr => hr.2 hfree, ?_⟩
    · unfold handle_event
      simp only []
      rw [if_neg hcl, if_neg hne, if_neg hpos, if_pos hm, if_neg hd, if_neg hcz]
      rfl
    · simp [State.sys, State.say]
    · intro j hj
      exact slot_set_ne _ _ _ _ (fun e => hj e.symm)
  · unfold handle_event
    simp only []
    rw [if_neg hcl]
    by_cases h1 : r.read_ret = -1
    · rw [if_pos h1]; rfl
    · rw [if_neg h1]
      by_cases h2 : r.read_ret > 0
      · rw [if_pos h2]; rfl
      · rw [if_neg h2]
        have h0 : r.read_ret = 0 := by omega
        by_cases hm : ev.events &&& EPOLLHUP ≠ 0 ∨ ev.events &&& EPOLLERR ≠ 0
        · rw [if_pos hm]
          by_cases hd : r.epoll_del_ret = -1
          · rw [if_pos hd]; rfl
          · rw [if_neg hd]
            by_cases hcz : r.close_ret = -1
            · rw [if_pos hcz]; rfl
            · exact absurd ⟨h0, hm, hd, hcz⟩ hc
        · rw [if_neg hm]; rfl

theorem client_removed_on_eof_with_hangup_witness :
    ∃ s1, handle_event one_client_state ⟨EPOLLIN ||| EPOLLHUP, 1⟩ (ev_results 0 0)
        = Outcome.running s1 ∧
      s1.ops = one_client_state.ops ++ [Op.read 6, Op.epoll_ctl_del 5 6, Op.close 6] ∧
      (slot s1.client_list 1).fd = 0 ∧ ¬ registered s1.client_list 1 := by
  have h := client_removed_on_eof_with_hangup one_client_state ⟨EPOLLIN ||| EPOLLHUP, 1⟩
    (ev_results 0 0) (by decide) (by decide) (by decide)
  rw [if_pos (by decide)] at h
  obtain ⟨s1, h1, h2, _, h4, h5, _⟩ := h
  exact ⟨s1, h1, h2, h4, h5⟩

set_option maxRecDepth 1000000 in
set_option maxHeartbeats 4000000 in
/-- C3, evaluated: a failing `accept`, a failing `read` on a client descriptor and
a full client table each end the process with EXIT_FAILURE through the label
`err`; with the table full the accepted descriptor 105 is not closed: the
last system calls are the accept, the fcntl and the unlink of `err`. -/
theorem per_client_failure_exits :
    loop_iter one_client_state (accept_ready (-1)) =
      Outcome.exited EXIT_FAILURE
        ((((one_client_state.sys (Op.epoll_wait 5)).sys (Op.accept 4)).say
          (Msg.perror "accept")).sys (Op.unlink Path.MY_SOCK_PATH)) ∧
    loop_iter one_client_state (client_ready 1 EPOLLIN (-1)) =
      Outcome.exited EXIT_FAILURE
        ((((one_client_state.sys (Op.epoll_wait 5)).sys (Op.read 6)).say
          (Msg.perror "read")).sys (Op.unlink Path.MY_SOCK_PATH)) ∧
    (∀ i, i < MAX_CLIENTS → (slot full_state.client_list i).fd ≠ 0) ∧
    loop_iter full_state (accept_ready 105) =
      Outcome.exited EXIT_FAILURE
        (((((full_state.sys (Op.epoll_wait 5)).sys (Op.accept 3)).sys
          (Op.fcntl_nonblock 105)).say Msg.unable_to_alloc).sys (Op.unlink Path.MY_SOCK_PATH)) := by
  refine ⟨by decide, by decide, by decide, by decide⟩

/-- C5, evaluated: when the set-timeout or the get-identity ioctl fails, `main`
writes "V", closes the device and exits with EXIT_FAILURE; when two sockets are inherited, or the
socket, bind, listen, epoll_create or epoll_ctl call fails, `main` exits with
EXIT_FAILURE while the device (descriptor 3) is still open: no "V" is
written and the handle is not closed. -/
theorem startup_failure_leaves_device_open :
    (main_startup { env_fresh with settimeout_ret := -1 }).code = some EXIT_FAILURE ∧
    (main_startup { env_fresh with settimeout_ret := -1 }).state.ops =
      [Op.stat Path.WATCHDOG_DEV, Op.open_wronly Path.WATCHDOG_DEV, Op.ioctl_settimeout 3 20,
        Op.write 3 ['V'], Op.close 3] ∧
    (main_startup { env_fresh with getsupport_ret := -1 }).code = some EXIT_FAILURE ∧
    (main_startup { env_fresh with getsupport_ret := -1 }).state.ops =
      [Op.stat Path.WATCHDOG_DEV, Op.open_wronly Path.WATCHDOG_DEV, Op.ioctl_settimeout 3 20,
        Op.ioctl_getsupport 3, Op.write 3 ['V'], Op.close 3] ∧
    main_startup { env_fresh with sd_listen_fds_ret := 2 } =
      Outcome.exited EXIT_FAILURE
        { State.init with
          watchdog_fd := 3
          ops := [Op.stat Path.WATCHDOG_DEV, Op.open_wronly Path.WATCHDOG_DEV,
            Op.ioctl_settimeout 3 20, Op.ioctl_getsupport 3, Op.sd_listen_fds,
            Op.unlink Path.MY_SOCK_PATH]
          log := [Msg.driver_identity, Msg.perror "too many file descriptors received.\n"] } ∧
    (List.all
      [{ env_fresh with sd_listen_fds_ret := 2 }, { env_fresh with socket_ret := -1 },
        { env_fresh with bind_ret := -1 }, { env_fresh with listen_ret := -1 },
        { env_fresh with epoll_create_ret := -1 }, { env_fresh with epoll_ctl_ret := -1 }]
      (fun e => decide ((main_startup e).code = some EXIT_FAILURE ∧
        (main_startup e).state.watchdog_fd = 3 ∧
        Op.write 3 ['V'] ∉ (main_startup e).state.ops ∧
        Op.close 3 ∉ (main_startup e).state.ops))) = true := by
  refine ⟨by decide, by decide, by decide, by decide, by decide, by decide⟩

/-- C8, as stated, fails: when the socket-activation query returns the error value
-1 and every other call succeeds, start-up is not fatal: a fresh socket is
created (unlink, socket, bind, listen with backlog 50) and the process goes
on to the event loop with it. -/
theorem negative_socket_count_creates_listener :
    main_startup env_query_error = main_startup env_fresh ∧
    (main_startup env_query_error).code = none ∧
    (main_startup env_query_error).state.listen_sock = 4 ∧
    (main_startup env_query_error).state.ops =
      [Op.stat Path.WATCHDOG_DEV, Op.open_wronly Path.WATCHDOG_DEV, Op.ioctl_settimeout 3 20,
        Op.ioctl_getsupport 3, Op.sd_listen_fds, Op.unlink Path.MY_SOCK_PATH, Op.socket,
        Op.bind 4 Path.MY_SOCK_PATH, Op.listen 4 50, Op.epoll_create,
        Op.epoll_ctl_add 5 4 (some 0)] ∧
    (main env_query_error [timeout_wait]).code = none ∧
    keepalives (main env_query_error [timeout_wait]).state.ops = 1 := by
  refine ⟨by decide, by decide, by decide, by decide, by decide, by decide⟩

/-- C8, amended: with the device opened, programmed and identified and every call
that is made succeeding, the count `n` of `sd_listen_fds` decides as follows.
For `n = 1` the inherited descriptor SD_LISTEN_FDS_START is the listening
socket and no unlink, socket, bind or listen call is made. For `n > 1` the
process exits with EXIT_FAILURE and never enters the event loop. For every
other `n`, that is 0 and every negative error return, a fresh socket is
created: unlink of the stale path, socket, bind, listen with backlog 50. -/
theorem listener_acquisition (e : StartupEnv)
    (hopen : e.open_ret ≠ -1) (hset : e.settimeout_ret ≠ -1) (hget : e.getsupport_ret ≠ -1)
    (hsock : e.socket_ret ≠ -1) (hbind : e.bind_ret ≠ -1) (hlisten : e.listen_ret ≠ -1)
    (hep : e.epoll_create_ret ≠ -1) (hctl : e.epoll_ctl_ret ≠ -1) :
    if e.sd_listen_fds_ret = 1 then
      ∃ s, main_startup e = Outcome.running s ∧ s.listen_sock = SD_LISTEN_FDS_START ∧
        s.ops = startup_prefix e ++
          [Op.epoll_create, Op.epoll_ctl_add e.epoll_create_ret SD_LISTEN_FDS_START (some 0)]
    else if e.sd_listen_fds_ret > 1 then
      ∀ ws, ∃ s, main e ws = Outcome.exited EXIT_FAILURE s ∧
        s.ops = startup_prefix e ++ [Op.unlink Path.MY_SOCK_PATH]
    else
      ∃ s, main_startup e = Outcome.running s ∧ s.listen_sock = e.socket_ret ∧
        s.ops = startup_prefix e ++
          [Op.unlink Path.MY_SOCK_PATH, Op.socket, Op.bind e.socket_ret Path.MY_SOCK_PATH,
            Op.listen e.socket_ret LISTEN_BACKLOG, Op.epoll_create,
            Op.epoll_ctl_add e.epoll_create_ret e.socket_ret (some 0)] := by
  by_cases h1 : e.sd_listen_fds_ret = 1
  · rw [if_pos h1]
    by_cases hst : e.stat_ret = -1 <;>
      simp [main_startup, main_listener, main_epoll, State.sys, State.say, startup_prefix,
        hopen, hset, hget, hep, hctl, h1, hst, alloc_client_init_fst, State.init,
        SD_LISTEN_FDS_START]
  · rw [if_neg h1]
    by_cases h2 : e.sd_listen_fds_ret > 1
    · rw [if_pos h2]
      intro ws
      by_cases hst : e.stat_ret = -1 <;>
        simp [main, main_startup, main_listener, err, State.sys, State.say, startup_prefix,
          hopen, hset, hget, h2, hst, State.init]
    · rw [if_neg h2]
      by_cases hst : e.stat_ret = -1 <;>
        simp [main_startup, main_listener, main_epoll, State.sys, State.say, startup_prefix,
          hopen, hset, hget, hsock, hbind, hlisten, hep, hctl, h1, h2, hst, State.init,
          alloc_client_init_fst]

theorem listener_acquisition_witness :
    ∃ s, main_startup env_query_error = Outcome.running s ∧ s.listen_sock = 4 ∧
      s.ops = startup_prefix env_query_error ++
        [Op.unlink Path.MY_SOCK_PATH, Op.socket, Op.bind 4 Path.MY_SOCK_PATH,
          Op.listen 4 LISTEN_BACKLOG, Op.epoll_create, Op.epoll_ctl_add 5 4 (some 0)] := by
  have h := listener_acquisition env_query_error (by decide) (by decide) (by decide)
    (by decide) (by decide) (by decide) (by decide) (by decide)
  rw [if_neg (by decide), if_neg (by decide)] at h
  exact h

end WatchdogMux
